import Mathlib

set_option maxHeartbeats 1000000

/-!
Shallow embedding of the Bittrex API client (`bittrex/bittrex.py`).

The external primitives the module calls — `hashlib.sha512`,
`hmac.new(..., hashlib.sha512)`, the HTTP transport
(`requests.get(...).json()`) and the AES cipher used by `decrypt` — are
parameters of the embedding; everything else is translated directly from
the source. Wall-clock time is modelled by an explicit rational clock:
`time.time()` reads the clock and `time.sleep(d)` advances it by exactly
`d`.
-/

/-- Module-level constant `API_URI` (line 52 of the source). -/
def API_URI : String := "https://api.bittrex.com"

/-- Module-level constant `API_V3_0` (line 54). -/
def API_V3_0 : String := "v3"

/-- Module-level constant `BASE_PATH` (line 56); the braces delimit the
`path` format hole. -/
def BASE_PATH : String := "/v3\x7bpath\x7d"

/-- Module-level constant `PROTECTION_PUB` (line 58). -/
def PROTECTION_PUB : String := "pub"

/-- Module-level constant `PROTECTION_PRV` (line 59). -/
def PROTECTION_PRV : String := "prv"

/-- Python exceptions that the embedded code can raise or catch. -/
inductive PyExn : Type where
  | nameError (n : String) : PyExn
  | requestException (msg : String) : PyExn
  deriving DecidableEq

/-- Python `str(e)` for the exceptions above. -/
def PyExn.toStr : PyExn → String
  | PyExn.nameError n => "name \x27" ++ n ++ "\x27 is not defined"
  | PyExn.requestException msg => msg

/-- Python/JSON values, as far as this client manipulates them. -/
inductive PyVal : Type where
  | pynone : PyVal
  | pybool (b : Bool) : PyVal
  | pystr (s : String) : PyVal
  | pydict (fields : List (String × PyVal)) : PyVal

/-- External cryptographic primitives: `hashlib.sha512(x).hexdigest()` and
`hmac.new(key, msg, hashlib.sha512).hexdigest()`, as functions on the
UTF-8 strings the module encodes. -/
structure HashPrims where
  sha512hex : String → String
  hmacSha512hex : String → String → String

/-- An HTTP request as handed to `requests.get`. -/
structure HttpRequest where
  method : String
  url : String
  headers : List (String × String)
  timeout : Nat
  deriving DecidableEq

/-- The HTTP transport: models `requests.get(...).json()`, which may raise
(timeout, connection error, non-JSON body). -/
abbrev Transport := HttpRequest → Except PyExn PyVal

/-- The mutable attributes of a `Bittrex` instance. -/
structure ClientState where
  api_key : String
  api_secret : String
  call_rate : ℚ
  last_call : Option ℚ
  deriving DecidableEq

/-- Embeds `Bittrex.__init__`: `str(api_key) if api_key is not None else
""`, `call_rate = 1.0 / calls_per_second`, `last_call = None`. -/
def mk_bittrex (api_key api_secret : Option String) (calls_per_second : ℚ) : ClientState :=
  { api_key := match api_key with | some k => k | Option.none => ""
  , api_secret := match api_secret with | some s => s | Option.none => ""
  , call_rate := 1 / calls_per_second
  , last_call := Option.none }

/-- Python truthiness of an optional string (`None` and the empty string
are falsy). -/
def py_truthy : Option String → Bool
  | Option.none => false
  | some s => s != ""

/-- Embeds `request_body = body if body else ""` in `Bittrex.dispatch`. -/
def py_str_or_empty (body : Option String) : String :=
  match body with
  | Option.none => ""
  | some b => if b == "" then "" else b

/-- Embeds the content hash computed in `Bittrex.dispatch`:
`hashlib.sha512(request_body.encode()).hexdigest()` (bound to the local
variable `signature` in the source). -/
def dispatch_content_hash (P : HashPrims) (body : Option String) : String :=
  P.sha512hex (py_str_or_empty body)

/-- Embeds `pre_sign = api_timestamp + request_url + "GET" + signature`. -/
def dispatch_pre_sign (api_timestamp request_url content_hash : String) : String :=
  api_timestamp ++ request_url ++ "GET" ++ content_hash

/-- Embeds `api_sign = hmac.new(self.api_secret.encode(), pre_sign.encode(),
hashlib.sha512).hexdigest()`. -/
def dispatch_api_sign (P : HashPrims) (api_secret pre_sign : String) : String :=
  P.hmacSha512hex api_secret pre_sign

/-- Embeds the headers dict built in `Bittrex.dispatch`. -/
def dispatch_headers (P : HashPrims) (api_key api_secret request_url api_timestamp : String)
    (body : Option String) : List (String × String) :=
  let signature := dispatch_content_hash P body
  let api_sign := dispatch_api_sign P api_secret (dispatch_pre_sign api_timestamp request_url signature)
  [("Api-Key", api_key), ("Api-Timestamp", api_timestamp),
   ("Api-Content-Hash", signature), ("Api-Signature", api_sign)]

/-- Embeds the `requests.get(request_url, headers=..., timeout=10)` call
performed by `Bittrex.dispatch`. -/
def dispatch_request (P : HashPrims) (api_key api_secret request_url api_timestamp : String)
    (body : Option String) : HttpRequest :=
  { method := "GET"
  , url := request_url
  , headers := dispatch_headers P api_key api_secret request_url api_timestamp body
  , timeout := 10 }

/-- Modelled from the spec (section 4.1, Request Signer), for comparison
with the source-derived `dispatch_headers`: `content_hash` is the hex
SHA-512 of the body bytes (the empty body hashes the empty byte string),
`pre_sign` is `timestamp + url + method + content_hash` by plain
concatenation with no separators, `signature` is the hex HMAC-SHA512 of
`pre_sign` keyed by the secret, and the emitted headers carry the key, the
timestamp, the content hash and the signature. -/
def spec_sign (P : HashPrims) (api_key secret timestamp url method body : String) :
    List (String × String) :=
  let content_hash := P.sha512hex body
  let pre_sign := timestamp ++ url ++ method ++ content_hash
  let signature := P.hmacSha512hex secret pre_sign
  [("Api-Key", api_key), ("Api-Timestamp", timestamp),
   ("Api-Content-Hash", content_hash), ("Api-Signature", signature)]

/-- UTF-8 bytes of one character, as natural numbers below 256. -/
def utf8Bytes (c : Char) : List Nat :=
  let n := c.toNat
  if n < 128 then [n]
  else if n < 2048 then [192 + n / 64, 128 + n % 64]
  else if n < 65536 then [224 + n / 4096, 128 + (n / 64) % 64, 128 + n % 64]
  else [240 + n / 262144, 128 + (n / 4096) % 64, 128 + (n / 64) % 64, 128 + n % 64]

/-- Uppercase hexadecimal digit for a value below 16. -/
def hex_digit (n : Nat) : Char :=
  if n < 10 then Char.ofNat (48 + n) else Char.ofNat (55 + n)

/-- Percent-encoding of one byte. -/
def percent_byte (b : Nat) : String :=
  String.mk ['%', hex_digit (b / 16), hex_digit (b % 16)]

/-- One character under `urllib.parse.quote_plus`: alphanumerics and
`_.-~` pass through, space becomes `+`, everything else is
percent-encoded byte-wise. -/
def quote_plus_char (c : Char) : String :=
  if c.isAlphanum || c = '_' || c = '.' || c = '-' || c = '~' then String.singleton c
  else if c = ' ' then "+"
  else String.join ((utf8Bytes c).map percent_byte)

/-- `urllib.parse.quote_plus` on a string. -/
def quote_plus (s : String) : String :=
  String.join (s.data.map quote_plus_char)

/-- `urllib.parse.urlencode` on an (ordered) dict of string options. -/
def urlencode (opts : List (String × String)) : String :=
  String.intercalate "&" (opts.map (fun kv => quote_plus kv.1 ++ "=" ++ quote_plus kv.2))

/-- Embeds the `base_url` computed in `__init__` together with its later
`.format(path=...)` application in `_api_query`: the result is
`https://api.bittrex.com` ++ `/v3` ++ the formatted path. -/
def base_url_format (path_repr : String) : String :=
  API_URI ++ "/v3" ++ path_repr

/-- Python `int(q)`: truncation toward zero. -/
def py_int (q : ℚ) : Int := Int.tdiv q.num (q.den : Int)

/-- Embeds `nonce = str(int(time.time() * 1000))` in `_api_query`. -/
def nonce_of (now : ℚ) : String := toString (py_int (now * 1000))

/-- Embeds one call of `Bittrex.wait` on the `last_call` field under the
idealized clock. Given the current clock reading `now`, returns the sleep
duration together with the new `last_call` value (which the source reads
with a second `time.time()` after sleeping, hence `now` plus the sleep). -/
def wait_step (rate : ℚ) (lc : Option ℚ) (now : ℚ) : ℚ × ℚ :=
  match lc with
  | Option.none => (0, now)
  | some t =>
      let passed := now - t
      let s := if passed < rate then rate - passed else 0
      (s, now + s)

/-- Embeds `Bittrex.wait` acting on the client state: returns the sleep
duration and the updated state. -/
def Bittrex.wait (st : ClientState) (now : ℚ) : ℚ × ClientState :=
  let p := wait_step st.call_rate st.last_call now
  (p.1, { st with last_call := some p.2 })

/-- A sequence of calls to `wait` under the idealized clock: before each
call the ambient program spends `d` seconds (the head of the list), then
`wait` runs, possibly sleeping. Returns the final clock reading and the
final `last_call` marker. -/
def wait_calls (rate : ℚ) : ℚ → Option ℚ → List ℚ → ℚ × Option ℚ
  | clock, lc, [] => (clock, lc)
  | clock, lc, d :: ds =>
      let now := clock + d
      let p := wait_step rate lc now
      wait_calls rate (now + p.1) (some p.2) ds

/-- Embeds `if not options: options = \x7b\x7d` in `_api_query` (`None`
and the empty dict are falsy). -/
def effective_options (options : Option (List (String × String))) : List (String × String) :=
  match options with
  | Option.none => []
  | some o => o

/-- The synthesized failure dict that `_api_query` returns when the try
block raises. -/
def no_api_response (e : PyExn) : PyVal :=
  PyVal.pydict [("success", PyVal.pybool false), ("message", PyVal.pystr "NO_API_RESPONSE"),
    ("result", PyVal.pynone), ("error", PyVal.pystr (PyExn.toStr e))]

/-- The request that `_api_query` hands to `dispatch`: its url is
`base_url.format(path=path_dict)` with the urlencoded options appended
directly (no separator), and its timestamp is the stringified millisecond
nonce. The `protection` argument is accepted, as in the source, and never
used. -/
def api_query_request (P : HashPrims) (st : ClientState) (now : ℚ) (protection : Option String)
    (path_repr : String) (options : Option (List (String × String))) (body : Option String) :
    HttpRequest :=
  dispatch_request P st.api_key st.api_secret
    (base_url_format path_repr ++ urlencode (effective_options options)) (nonce_of now) body

/-- Embeds `Bittrex._api_query`: build the request url and nonce, then in
a try block call `wait` and `dispatch`; any exception raised there is
converted into the `NO_API_RESPONSE` dict and returned as a value. -/
def api_query (P : HashPrims) (tr : Transport) (st : ClientState) (now : ℚ)
    (protection : Option String) (path_repr : String)
    (options : Option (List (String × String))) (body : Option String) :
    Except PyExn (PyVal × ClientState) :=
  let w := Bittrex.wait st now
  match tr (api_query_request P st now protection path_repr options body) with
  | Except.ok j => Except.ok (j, w.2)
  | Except.error e => Except.ok (no_api_response e, w.2)

/-- The module-level string constants defined by assignments in
`bittrex.py` (lines 27 to 59), as a name-to-value table. `API_V1_1` and
`API_V2_0` are absent: no assignment anywhere in the module defines them. -/
def module_string_globals : List (String × String) :=
  [("BUY_ORDERBOOK", "buy"), ("SELL_ORDERBOOK", "sell"), ("BOTH_ORDERBOOK", "both"),
   ("TICKINTERVAL_ONEMIN", "oneMin"), ("TICKINTERVAL_FIVEMIN", "fiveMin"),
   ("TICKINTERVAL_HOUR", "hour"), ("TICKINTERVAL_THIRTYMIN", "thirtyMin"),
   ("TICKINTERVAL_DAY", "Day"), ("ORDERTYPE_LIMIT", "LIMIT"), ("ORDERTYPE_MARKET", "MARKET"),
   ("TIMEINEFFECT_GOOD_TIL_CANCELLED", "GOOD_TIL_CANCELLED"),
   ("TIMEINEFFECT_IMMEDIATE_OR_CANCEL", "IMMEDIATE_OR_CANCEL"),
   ("TIMEINEFFECT_FILL_OR_KILL", "FILL_OR_KILL"),
   ("CONDITIONTYPE_NONE", "NONE"), ("CONDITIONTYPE_GREATER_THAN", "GREATER_THAN"),
   ("CONDITIONTYPE_LESS_THAN", "LESS_THAN"), ("CONDITIONTYPE_STOP_LOSS_FIXED", "STOP_LOSS_FIXED"),
   ("CONDITIONTYPE_STOP_LOSS_PERCENTAGE", "STOP_LOSS_PERCENTAGE"),
   ("API_URI", API_URI), ("API_V3_0", API_V3_0), ("BASE_PATH", BASE_PATH),
   ("PROTECTION_PUB", PROTECTION_PUB), ("PROTECTION_PRV", PROTECTION_PRV)]

/-- Evaluating a module-level name: the value when the module defines it,
`NameError` otherwise (Python raises it at the point of reference). -/
def eval_global (n : String) : Except PyExn String :=
  match module_string_globals.lookup n with
  | some v => Except.ok v
  | Option.none => Except.error (PyExn.nameError n)

/-- Python `str()` of a string-valued dict, as `str.format` would render a
dict passed for the `path` hole. -/
def py_repr_dict (d : List (String × String)) : String :=
  "\x7b" ++ String.intercalate ", "
    (d.map (fun kv => "\x27" ++ kv.1 ++ "\x27: \x27" ++ kv.2 ++ "\x27")) ++ "\x7d"

/-- Embeds `Bittrex.get_markets`: a public market-data operation. -/
def get_markets (P : HashPrims) (tr : Transport) (st : ClientState) (now : ℚ) :
    Except PyExn (PyVal × ClientState) :=
  api_query P tr st now Option.none "/markets" Option.none Option.none

/-- The request dispatched by `get_markets` (the transport argument of
`api_query` is applied to exactly this value). -/
def get_markets_request (P : HashPrims) (st : ClientState) (now : ℚ) : HttpRequest :=
  api_query_request P st now Option.none "/markets" Option.none Option.none

/-- Embeds `Bittrex.get_currencies`. -/
def get_currencies (P : HashPrims) (tr : Transport) (st : ClientState) (now : ℚ) :
    Except PyExn (PyVal × ClientState) :=
  api_query P tr st now Option.none "/currencies" Option.none Option.none

/-- Embeds `Bittrex.get_market_summaries`. -/
def get_market_summaries (P : HashPrims) (tr : Transport) (st : ClientState) (now : ℚ) :
    Except PyExn (PyVal × ClientState) :=
  api_query P tr st now Option.none "/markets/summaries" Option.none Option.none

/-- Embeds `Bittrex.get_market_summary`. -/
def get_market_summary (P : HashPrims) (tr : Transport) (st : ClientState) (now : ℚ)
    (market : String) : Except PyExn (PyVal × ClientState) :=
  api_query P tr st now Option.none ("/markets/" ++ market ++ "/summary") Option.none Option.none

/-- Embeds `Bittrex.get_market_ticker`. -/
def get_market_ticker (P : HashPrims) (tr : Transport) (st : ClientState) (now : ℚ)
    (market : String) : Except PyExn (PyVal × ClientState) :=
  api_query P tr st now Option.none ("/markets/" ++ market ++ "/ticker") Option.none Option.none

/-- Embeds `Bittrex.buy_limit`; evaluating the `path_dict` literal first
evaluates the module global `API_V1_1`. -/
def buy_limit (P : HashPrims) (tr : Transport) (st : ClientState) (now : ℚ)
    (market quantity rate : String) : Except PyExn (PyVal × ClientState) :=
  match eval_global "API_V1_1" with
  | Except.error e => Except.error e
  | Except.ok k1 =>
      api_query P tr st now (some PROTECTION_PRV) (py_repr_dict [(k1, "/market/buylimit")])
        (some [("market", market), ("quantity", quantity), ("rate", rate)]) Option.none

/-- Embeds `Bittrex.sell_limit`. -/
def sell_limit (P : HashPrims) (tr : Transport) (st : ClientState) (now : ℚ)
    (market quantity rate : String) : Except PyExn (PyVal × ClientState) :=
  match eval_global "API_V1_1" with
  | Except.error e => Except.error e
  | Except.ok k1 =>
      api_query P tr st now (some PROTECTION_PRV) (py_repr_dict [(k1, "/market/selllimit")])
        (some [("market", market), ("quantity", quantity), ("rate", rate)]) Option.none

/-- Embeds `Bittrex.cancel`. -/
def cancel (P : HashPrims) (tr : Transport) (st : ClientState) (now : ℚ)
    (uuid : String) : Except PyExn (PyVal × ClientState) :=
  match eval_global "API_V1_1" with
  | Except.error e => Except.error e
  | Except.ok k1 =>
      match eval_global "API_V2_0" with
      | Except.error e => Except.error e
      | Except.ok k2 =>
          api_query P tr st now (some PROTECTION_PRV)
            (py_repr_dict [(k1, "/market/cancel"), (k2, "/key/market/tradecancel")])
            (some [("uuid", uuid), ("orderid", uuid)]) Option.none

/-- Embeds `Bittrex.get_open_orders`. -/
def get_open_orders (P : HashPrims) (tr : Transport) (st : ClientState) (now : ℚ)
    (market : Option String) : Except PyExn (PyVal × ClientState) :=
  match eval_global "API_V1_1" with
  | Except.error e => Except.error e
  | Except.ok k1 =>
      match eval_global "API_V2_0" with
      | Except.error e => Except.error e
      | Except.ok k2 =>
          api_query P tr st now (some PROTECTION_PRV)
            (py_repr_dict [(k1, "/market/getopenorders"), (k2, "/key/market/getopenorders")])
            (if py_truthy market then
               some [("market", market.getD ""), ("marketname", market.getD "")]
             else Option.none) Option.none

/-- Embeds `Bittrex.get_balances`. -/
def get_balances (P : HashPrims) (tr : Transport) (st : ClientState) (now : ℚ) :
    Except PyExn (PyVal × ClientState) :=
  match eval_global "API_V1_1" with
  | Except.error e => Except.error e
  | Except.ok k1 =>
      match eval_global "API_V2_0" with
      | Except.error e => Except.error e
      | Except.ok k2 =>
          api_query P tr st now (some PROTECTION_PRV)
            (py_repr_dict [(k1, "/account/getbalances"), (k2, "/key/balance/GetBalances")])
            Option.none Option.none

/-- Embeds `Bittrex.get_balance`. -/
def get_balance (P : HashPrims) (tr : Transport) (st : ClientState) (now : ℚ)
    (currency : String) : Except PyExn (PyVal × ClientState) :=
  match eval_global "API_V1_1" with
  | Except.error e => Except.error e
  | Except.ok k1 =>
      match eval_global "API_V2_0" with
      | Except.error e => Except.error e
      | Except.ok k2 =>
          api_query P tr st now (some PROTECTION_PRV)
            (py_repr_dict [(k1, "/account/getbalance"), (k2, "/key/balance/getbalance")])
            (some [("currency", currency), ("currencyname", currency)]) Option.none

/-- Embeds `Bittrex.get_deposit_address`. -/
def get_deposit_address (P : HashPrims) (tr : Transport) (st : ClientState) (now : ℚ)
    (currency : String) : Except PyExn (PyVal × ClientState) :=
  match eval_global "API_V1_1" with
  | Except.error e => Except.error e
  | Except.ok k1 =>
      match eval_global "API_V2_0" with
      | Except.error e => Except.error e
      | Except.ok k2 =>
          api_query P tr st now (some PROTECTION_PRV)
            (py_repr_dict [(k1, "/account/getdepositaddress"), (k2, "/key/balance/getdepositaddress")])
            (some [("currency", currency), ("currencyname", currency)]) Option.none

/-- Embeds the options dict built in `Bittrex.withdraw`: the base dict
always carries `currency`, `quantity` and `address`; the `paymentid` key
is added only when `paymentid` is truthy. -/
def withdraw_options (currency quantity address : String) (paymentid : Option String) :
    List (String × String) :=
  let options := [("currency", currency), ("quantity", quantity), ("address", address)]
  if py_truthy paymentid then options ++ [("paymentid", paymentid.getD "")] else options

/-- Embeds `Bittrex.withdraw`. -/
def withdraw (P : HashPrims) (tr : Transport) (st : ClientState) (now : ℚ)
    (currency quantity address : String) (paymentid : Option String) :
    Except PyExn (PyVal × ClientState) :=
  let options := withdraw_options currency quantity address paymentid
  match eval_global "API_V1_1" with
  | Except.error e => Except.error e
  | Except.ok k1 =>
      match eval_global "API_V2_0" with
      | Except.error e => Except.error e
      | Except.ok k2 =>
          api_query P tr st now (some PROTECTION_PRV)
            (py_repr_dict [(k1, "/account/withdraw"), (k2, "/key/balance/withdrawcurrency")])
            (some options) Option.none

/-- Embeds `Bittrex.get_order_history` (two branches on `market`). -/
def get_order_history (P : HashPrims) (tr : Transport) (st : ClientState) (now : ℚ)
    (market : Option String) : Except PyExn (PyVal × ClientState) :=
  if py_truthy market then
    match eval_global "API_V1_1" with
    | Except.error e => Except.error e
    | Except.ok k1 =>
        match eval_global "API_V2_0" with
        | Except.error e => Except.error e
        | Except.ok k2 =>
            api_query P tr st now (some PROTECTION_PRV)
              (py_repr_dict [(k1, "/account/getorderhistory"), (k2, "/key/market/GetOrderHistory")])
              (some [("market", market.getD ""), ("marketname", market.getD "")]) Option.none
  else
    match eval_global "API_V1_1" with
    | Except.error e => Except.error e
    | Except.ok k1 =>
        match eval_global "API_V2_0" with
        | Except.error e => Except.error e
        | Except.ok k2 =>
            api_query P tr st now (some PROTECTION_PRV)
              (py_repr_dict [(k1, "/account/getorderhistory"), (k2, "/key/orders/getorderhistory")])
              Option.none Option.none

/-- Embeds `Bittrex.get_order`. -/
def get_order (P : HashPrims) (tr : Transport) (st : ClientState) (now : ℚ)
    (uuid : String) : Except PyExn (PyVal × ClientState) :=
  match eval_global "API_V1_1" with
  | Except.error e => Except.error e
  | Except.ok k1 =>
      match eval_global "API_V2_0" with
      | Except.error e => Except.error e
      | Except.ok k2 =>
          api_query P tr st now (some PROTECTION_PRV)
            (py_repr_dict [(k1, "/account/getorder"), (k2, "/key/orders/getorder")])
            (some [("uuid", uuid), ("orderid", uuid)]) Option.none

/-- Embeds the options argument of `Bittrex.get_withdrawal_history`:
a dict with the two currency keys when `currency` is truthy, `None`
otherwise. -/
def get_withdrawal_history_options (currency : Option String) :
    Option (List (String × String)) :=
  if py_truthy currency then
    some [("currency", currency.getD ""), ("currencyname", currency.getD "")]
  else Option.none

/-- Embeds `Bittrex.get_withdrawal_history`. -/
def get_withdrawal_history (P : HashPrims) (tr : Transport) (st : ClientState) (now : ℚ)
    (currency : Option String) : Except PyExn (PyVal × ClientState) :=
  match eval_global "API_V1_1" with
  | Except.error e => Except.error e
  | Except.ok k1 =>
      match eval_global "API_V2_0" with
      | Except.error e => Except.error e
      | Except.ok k2 =>
          api_query P tr st now (some PROTECTION_PRV)
            (py_repr_dict [(k1, "/account/getwithdrawalhistory"), (k2, "/key/balance/getwithdrawalhistory")])
            (get_withdrawal_history_options currency) Option.none

/-- Embeds `Bittrex.get_deposit_history`. -/
def get_deposit_history (P : HashPrims) (tr : Transport) (st : ClientState) (now : ℚ)
    (currency : Option String) : Except PyExn (PyVal × ClientState) :=
  match eval_global "API_V1_1" with
  | Except.error e => Except.error e
  | Except.ok k1 =>
      match eval_global "API_V2_0" with
      | Except.error e => Except.error e
      | Except.ok k2 =>
          api_query P tr st now (some PROTECTION_PRV)
            (py_repr_dict [(k1, "/account/getdeposithistory"), (k2, "/key/balance/getdeposithistory")])
            (if py_truthy currency then
               some [("currency", currency.getD ""), ("currencyname", currency.getD "")]
             else Option.none) Option.none

/-- Embeds `Bittrex.get_wallet_health`. -/
def get_wallet_health (P : HashPrims) (tr : Transport) (st : ClientState) (now : ℚ) :
    Except PyExn (PyVal × ClientState) :=
  match eval_global "API_V2_0" with
  | Except.error e => Except.error e
  | Except.ok k2 =>
      api_query P tr st now (some PROTECTION_PUB)
        (py_repr_dict [(k2, "/pub/Currencies/GetWalletHealth")]) Option.none Option.none

/-- Embeds `Bittrex.get_balance_distribution`. -/
def get_balance_distribution (P : HashPrims) (tr : Transport) (st : ClientState) (now : ℚ) :
    Except PyExn (PyVal × ClientState) :=
  match eval_global "API_V2_0" with
  | Except.error e => Except.error e
  | Except.ok k2 =>
      api_query P tr st now (some PROTECTION_PUB)
        (py_repr_dict [(k2, "/pub/Currency/GetBalanceDistribution")]) Option.none Option.none

/-- Embeds `Bittrex.get_pending_withdrawals`. -/
def get_pending_withdrawals (P : HashPrims) (tr : Transport) (st : ClientState) (now : ℚ)
    (currency : Option String) : Except PyExn (PyVal × ClientState) :=
  match eval_global "API_V2_0" with
  | Except.error e => Except.error e
  | Except.ok k2 =>
      api_query P tr st now (some PROTECTION_PRV)
        (py_repr_dict [(k2, "/key/balance/getpendingwithdrawals")])
        (if py_truthy currency then some [("currencyname", currency.getD "")] else Option.none)
        Option.none

/-- Embeds `Bittrex.get_pending_deposits`. -/
def get_pending_deposits (P : HashPrims) (tr : Transport) (st : ClientState) (now : ℚ)
    (currency : Option String) : Except PyExn (PyVal × ClientState) :=
  match eval_global "API_V2_0" with
  | Except.error e => Except.error e
  | Except.ok k2 =>
      api_query P tr st now (some PROTECTION_PRV)
        (py_repr_dict [(k2, "/key/balance/getpendingdeposits")])
        (if py_truthy currency then some [("currencyname", currency.getD "")] else Option.none)
        Option.none

/-- Embeds `Bittrex.generate_deposit_address` (the source reuses the
pending-deposits path). -/
def generate_deposit_address (P : HashPrims) (tr : Transport) (st : ClientState) (now : ℚ)
    (currency : String) : Except PyExn (PyVal × ClientState) :=
  match eval_global "API_V2_0" with
  | Except.error e => Except.error e
  | Except.ok k2 =>
      api_query P tr st now (some PROTECTION_PRV)
        (py_repr_dict [(k2, "/key/balance/getpendingdeposits")])
        (some [("currencyname", currency)]) Option.none

/-- Embeds `Bittrex.trade_sell` (argument values as the strings they
urlencode to; the Python defaults are `None` and `0.0`). -/
def trade_sell (P : HashPrims) (tr : Transport) (st : ClientState) (now : ℚ)
    (market order_type quantity rate time_in_effect condition_type target : String) :
    Except PyExn (PyVal × ClientState) :=
  match eval_global "API_V2_0" with
  | Except.error e => Except.error e
  | Except.ok k2 =>
      api_query P tr st now (some PROTECTION_PRV)
        (py_repr_dict [(k2, "/key/market/tradesell")])
        (some [("marketname", market), ("ordertype", order_type), ("quantity", quantity),
               ("rate", rate), ("timeInEffect", time_in_effect),
               ("conditiontype", condition_type), ("target", target)]) Option.none

/-- Embeds `Bittrex.trade_buy`. -/
def trade_buy (P : HashPrims) (tr : Transport) (st : ClientState) (now : ℚ)
    (market order_type quantity rate time_in_effect condition_type target : String) :
    Except PyExn (PyVal × ClientState) :=
  match eval_global "API_V2_0" with
  | Except.error e => Except.error e
  | Except.ok k2 =>
      api_query P tr st now (some PROTECTION_PRV)
        (py_repr_dict [(k2, "/key/market/tradebuy")])
        (some [("marketname", market), ("ordertype", order_type), ("quantity", quantity),
               ("rate", rate), ("timeInEffect", time_in_effect),
               ("conditiontype", condition_type), ("target", target)]) Option.none

/-- Embeds `Bittrex.get_candles`. -/
def get_candles (P : HashPrims) (tr : Transport) (st : ClientState) (now : ℚ)
    (market tick_interval : String) : Except PyExn (PyVal × ClientState) :=
  match eval_global "API_V2_0" with
  | Except.error e => Except.error e
  | Except.ok k2 =>
      api_query P tr st now (some PROTECTION_PUB)
        (py_repr_dict [(k2, "/pub/market/GetTicks")])
        (some [("marketName", market), ("tickInterval", tick_interval)]) Option.none

/-- Embeds `Bittrex.get_latest_candle`. -/
def get_latest_candle (P : HashPrims) (tr : Transport) (st : ClientState) (now : ℚ)
    (market tick_interval : String) : Except PyExn (PyVal × ClientState) :=
  match eval_global "API_V2_0" with
  | Except.error e => Except.error e
  | Except.ok k2 =>
      api_query P tr st now (some PROTECTION_PUB)
        (py_repr_dict [(k2, "/pub/market/GetLatestTick")])
        (some [("marketName", market), ("tickInterval", tick_interval)]) Option.none

/-- One market record as far as `list_markets_by_currency` reads it: its
`MarketName` field. -/
structure Market where
  marketName : String
  deriving DecidableEq

/-- Python `str.lower()`. -/
def py_lower (s : String) : String := String.mk (s.data.map Char.toLower)

/-- Python `str.endswith(suffix)`. -/
def py_endswith (s tail : String) : Bool := List.isSuffixOf tail.data s.data

/-- Embeds the comprehension in `Bittrex.list_markets_by_currency`,
applied to the `result` list of the market-listing response. -/
def list_markets_by_currency (markets : List Market) (currency : String) : List String :=
  (markets.filter (fun m => py_endswith (py_lower m.marketName) (py_lower currency))).map
    (fun m => m.marketName)

/-- Embeds `Bittrex.decrypt` in the branch where `pycrypto` is available:
both credential attributes are reassigned; the `ast.literal_eval`,
`cipher.decrypt` and `.decode()` pipeline is the external parameter
`dec`. -/
def Bittrex.decrypt (dec : String → String) (st : ClientState) : ClientState :=
  { st with api_key := dec st.api_key, api_secret := dec st.api_secret }

/-- Concrete hash primitives used to evaluate the pipeline on fixtures. -/
def P0 : HashPrims :=
  { sha512hex := fun s => "sha512." ++ s
  , hmacSha512hex := fun k m => "hmac." ++ k ++ "." ++ m }

/-- A concrete client fixture. -/
def c0 : ClientState := mk_bittrex (some "mykey") (some "mysecret") 1

/-- C1: for every secret, timestamp, url and body (and every choice of the
external SHA-512 and HMAC-SHA512 primitives), the headers emitted by
`dispatch` are exactly those of the spec signer applied to the same
inputs with method `GET` and the empty string for an empty or `None`
body: content hash = hex SHA-512 of the body, pre-sign = plain
concatenation timestamp + url + `GET` + content hash, signature = hex
HMAC-SHA512 keyed by the secret over the pre-sign string; the headers
carry the key, this same timestamp, this content hash and this
signature. -/
theorem c1_request_signature :
    ∀ (P : HashPrims) (api_key api_secret api_timestamp request_url : String)
      (body : Option String),
      dispatch_headers P api_key api_secret request_url api_timestamp body =
        spec_sign P api_key api_secret api_timestamp request_url "GET" (py_str_or_empty body) ∧
      dispatch_content_hash P body = P.sha512hex (py_str_or_empty body) ∧
      dispatch_pre_sign api_timestamp request_url (dispatch_content_hash P body) =
        api_timestamp ++ request_url ++ "GET" ++ dispatch_content_hash P body ∧
      dispatch_api_sign P api_secret
          (dispatch_pre_sign api_timestamp request_url (dispatch_content_hash P body)) =
        P.hmacSha512hex api_secret
          (dispatch_pre_sign api_timestamp request_url (dispatch_content_hash P body)) :=
  fun _ _ _ _ _ _ => ⟨rfl, rfl, rfl, rfl⟩

/-- C2: a transport failure during dispatch is never propagated:
`_api_query` returns `Except.ok` for every transport, and when the
transport raises `e` the returned value is exactly the dict with
`success = False`, `message = NO_API_RESPONSE`, `result = None` and
`error = str(e)`. -/
theorem c2_transport_failure_returned :
    ∀ (P : HashPrims) (st : ClientState) (now : ℚ) (protection : Option String)
      (path_repr : String) (options : Option (List (String × String)))
      (body : Option String) (e : PyExn),
      api_query P (fun _ => Except.error e) st now protection path_repr options body =
        Except.ok (no_api_response e, (Bittrex.wait st now).2) ∧
      no_api_response e =
        PyVal.pydict [("success", PyVal.pybool false), ("message", PyVal.pystr "NO_API_RESPONSE"),
          ("result", PyVal.pynone), ("error", PyVal.pystr (PyExn.toStr e))] ∧
      ∀ (tr : Transport), ∃ v,
        api_query P tr st now protection path_repr options body = Except.ok v := by
  intro P st now prot path opts body e
  refine ⟨rfl, rfl, ?_⟩
  intro tr
  unfold api_query
  cases h : tr (api_query_request P st now prot path opts body) with
  | ok j => exact ⟨(j, (Bittrex.wait st now).2), rfl⟩
  | error err => exact ⟨(no_api_response err, (Bittrex.wait st now).2), rfl⟩

/-- C4 counterexample: `get_markets` is a public market-data operation
(the source passes no protection flag for it), yet the request it
dispatches carries the authentication headers — the API key header is
present and the header dict has all four entries. This falsifies the
claim that a public request is sent without authentication headers. -/
theorem c4_counterexample_public_request_signed :
    (get_markets_request P0 c0 0).headers.lookup "Api-Key" = some "mykey" ∧
    (get_markets_request P0 c0 0).headers.length = 4 :=
  ⟨rfl, rfl⟩

/-- C4 amended: the dispatcher attaches the four authentication headers
(API key, timestamp, content hash, signature) to every request it builds,
regardless of the `protection` argument, which `_api_query` ignores. -/
theorem c4_headers_always_attached :
    ∀ (P : HashPrims) (st : ClientState) (now : ℚ) (prot prot2 : Option String)
      (path_repr : String) (options : Option (List (String × String))) (body : Option String),
      api_query_request P st now prot path_repr options body =
        api_query_request P st now prot2 path_repr options body ∧
      (api_query_request P st now prot path_repr options body).headers.map Prod.fst =
        ["Api-Key", "Api-Timestamp", "Api-Content-Hash", "Api-Signature"] :=
  fun _ _ _ _ _ _ _ _ => ⟨rfl, rfl⟩

/-- C8: every request built by the dispatcher has url = the fixed base
`https://api.bittrex.com` plus the `/v3` prefix plus the path with the
urlencoded query parameters appended, method `GET`, a fixed timeout of 10
seconds, and its timestamp header is the nonce: the current time in
milliseconds truncated to an integer and stringified. -/
theorem c8_dispatcher_request_shape :
    ∀ (P : HashPrims) (st : ClientState) (now : ℚ) (prot : Option String)
      (path_repr : String) (options : Option (List (String × String))) (body : Option String),
      (api_query_request P st now prot path_repr options body).url =
        base_url_format path_repr ++ urlencode (effective_options options) ∧
      base_url_format path_repr = API_URI ++ "/v3" ++ path_repr ∧
      API_URI = "https://api.bittrex.com" ∧
      (api_query_request P st now prot path_repr options body).method = "GET" ∧
      (api_query_request P st now prot path_repr options body).timeout = 10 ∧
      (api_query_request P st now prot path_repr options body).headers.lookup "Api-Timestamp" =
        some (toString (py_int (now * 1000))) :=
  fun _ _ _ _ _ _ _ => ⟨rfl, rfl, rfl, rfl, rfl, rfl⟩

/-- C10: the request url is the base-plus-path string with the urlencoded
options concatenated directly onto its end — no separator of any kind in
between — and with `None` or empty options the url is exactly the
base-plus-path string; the concrete instance shows the encoded query
glued straight after the path with no `?`. -/
theorem c10_query_concatenation :
    (∀ (P : HashPrims) (st : ClientState) (now : ℚ) (prot : Option String)
        (path_repr : String) (body : Option String),
        (api_query_request P st now prot path_repr Option.none body).url =
          base_url_format path_repr ∧
        (api_query_request P st now prot path_repr (some []) body).url =
          base_url_format path_repr ∧
        (∀ opts, (api_query_request P st now prot path_repr (some opts) body).url =
          base_url_format path_repr ++ urlencode opts) ∧
        base_url_format path_repr = "https://api.bittrex.com/v3" ++ path_repr) ∧
    (api_query_request P0 c0 0 Option.none "/markets"
        (some [("marketSymbol", "BTC-LTC")]) Option.none).url =
      "https://api.bittrex.com/v3/marketsmarketSymbol=BTC-LTC" := by
  refine ⟨?_, by decide⟩
  intro P st now prot path body
  refine ⟨?_, ?_, fun opts => rfl, rfl⟩
  · show base_url_format path ++ urlencode [] = base_url_format path
    rw [show urlencode [] = "" from rfl, String.append_empty]
  · show base_url_format path ++ urlencode [] = base_url_format path
    rw [show urlencode [] = "" from rfl, String.append_empty]

/-- C3: every API-v1.1/v2.0 operation references the module names
`API_V1_1` or `API_V2_0`, which no assignment in the module defines, so
each of the 21 operations raises `NameError` while building its
`path_dict`, before any request is built or dispatched, and never returns
a response value. -/
theorem c3_undefined_api_version_names :
    (∀ (P : HashPrims) (tr : Transport) (st : ClientState) (now : ℚ) (m q r : String),
        buy_limit P tr st now m q r = Except.error (PyExn.nameError "API_V1_1")) ∧
    (∀ (P : HashPrims) (tr : Transport) (st : ClientState) (now : ℚ) (m q r : String),
        sell_limit P tr st now m q r = Except.error (PyExn.nameError "API_V1_1")) ∧
    (∀ (P : HashPrims) (tr : Transport) (st : ClientState) (now : ℚ) (u : String),
        cancel P tr st now u = Except.error (PyExn.nameError "API_V1_1")) ∧
    (∀ (P : HashPrims) (tr : Transport) (st : ClientState) (now : ℚ) (m : Option String),
        get_open_orders P tr st now m = Except.error (PyExn.nameError "API_V1_1")) ∧
    (∀ (P : HashPrims) (tr : Transport) (st : ClientState) (now : ℚ),
        get_balances P tr st now = Except.error (PyExn.nameError "API_V1_1")) ∧
    (∀ (P : HashPrims) (tr : Transport) (st : ClientState) (now : ℚ) (c : String),
        get_balance P tr st now c = Except.error (PyExn.nameError "API_V1_1")) ∧
    (∀ (P : HashPrims) (tr : Transport) (st : ClientState) (now : ℚ) (c : String),
        get_deposit_address P tr st now c = Except.error (PyExn.nameError "API_V1_1")) ∧
    (∀ (P : HashPrims) (tr : Transport) (st : ClientState) (now : ℚ) (c q a : String)
        (pid : Option String),
        withdraw P tr st now c q a pid = Except.error (PyExn.nameError "API_V1_1")) ∧
    (∀ (P : HashPrims) (tr : Transport) (st : ClientState) (now : ℚ) (m : Option String),
        get_order_history P tr st now m = Except.error (PyExn.nameError "API_V1_1")) ∧
    (∀ (P : HashPrims) (tr : Transport) (st : ClientState) (now : ℚ) (u : String),
        get_order P tr st now u = Except.error (PyExn.nameError "API_V1_1")) ∧
    (∀ (P : HashPrims) (tr : Transport) (st : ClientState) (now : ℚ) (c : Option String),
        get_withdrawal_history P tr st now c = Except.error (PyExn.nameError "API_V1_1")) ∧
    (∀ (P : HashPrims) (tr : Transport) (st : ClientState) (now : ℚ) (c : Option String),
        get_deposit_history P tr st now c = Except.error (PyExn.nameError "API_V1_1")) ∧
    (∀ (P : HashPrims) (tr : Transport) (st : ClientState) (now : ℚ),
        get_wallet_health P tr st now = Except.error (PyExn.nameError "API_V2_0")) ∧
    (∀ (P : HashPrims) (tr : Transport) (st : ClientState) (now : ℚ),
        get_balance_distribution P tr st now = Except.error (PyExn.nameError "API_V2_0")) ∧
    (∀ (P : HashPrims) (tr : Transport) (st : ClientState) (now : ℚ) (c : Option String),
        get_pending_withdrawals P tr st now c = Except.error (PyExn.nameError "API_V2_0")) ∧
    (∀ (P : HashPrims) (tr : Transport) (st : ClientState) (now : ℚ) (c : Option String),
        get_pending_deposits P tr st now c = Except.error (PyExn.nameError "API_V2_0")) ∧
    (∀ (P : HashPrims) (tr : Transport) (st : ClientState) (now : ℚ) (c : String),
        generate_deposit_address P tr st now c = Except.error (PyExn.nameError "API_V2_0")) ∧
    (∀ (P : HashPrims) (tr : Transport) (st : ClientState) (now : ℚ)
        (m o q r t ct tg : String),
        trade_sell P tr st now m o q r t ct tg = Except.error (PyExn.nameError "API_V2_0")) ∧
    (∀ (P : HashPrims) (tr : Transport) (st : ClientState) (now : ℚ)
        (m o q r t ct tg : String),
        trade_buy P tr st now m o q r t ct tg = Except.error (PyExn.nameError "API_V2_0")) ∧
    (∀ (P : HashPrims) (tr : Transport) (st : ClientState) (now : ℚ) (m ti : String),
        get_candles P tr st now m ti = Except.error (PyExn.nameError "API_V2_0")) ∧
    (∀ (P : HashPrims) (tr : Transport) (st : ClientState) (now : ℚ) (m ti : String),
        get_latest_candle P tr st now m ti = Except.error (PyExn.nameError "API_V2_0")) := by
  refine ⟨?_, ?_, ?_, ?_, ?_, ?_, ?_, ?_, ?_, ?_, ?_, ?_, ?_, ?_, ?_, ?_, ?_, ?_, ?_, ?_, ?_⟩ <;>
    intros <;>
    first
      | rfl
      | (unfold get_order_history; split <;> rfl)

/-- Helper for the rate-limit lower bound: whenever the `last_call`
marker equals the current clock, each further call advances the clock by
at least `rate`. -/
theorem wait_calls_ge (rate : ℚ) (hr : 0 ≤ rate) :
    ∀ (ds : List ℚ) (clock : ℚ), (∀ d ∈ ds, 0 ≤ d) →
      clock + (ds.length : ℚ) * rate ≤ (wait_calls rate clock (some clock) ds).1 := by
  intro ds
  induction ds with
  | nil =>
      intro clock _
      simp [wait_calls]
  | cons d ds ih =>
      intro clock hd
      have hds : ∀ x ∈ ds, 0 ≤ x := fun x hx => hd x (List.mem_cons_of_mem _ hx)
      have h22 : (wait_step rate (some clock) (clock + d)).2 =
          (clock + d) + (wait_step rate (some clock) (clock + d)).1 := rfl
      have hunf : wait_calls rate clock (some clock) (d :: ds) =
          wait_calls rate ((clock + d) + (wait_step rate (some clock) (clock + d)).1)
            (some ((clock + d) + (wait_step rate (some clock) (clock + d)).1)) ds := by
        rw [show wait_calls rate clock (some clock) (d :: ds) =
            wait_calls rate ((clock + d) + (wait_step rate (some clock) (clock + d)).1)
              (some ((wait_step rate (some clock) (clock + d)).2)) ds from rfl, h22]
      have hstep : (wait_step rate (some clock) (clock + d)).1 =
          (if clock + d - clock < rate then rate - (clock + d - clock) else 0) := rfl
      have hc : clock + rate ≤ (clock + d) + (wait_step rate (some clock) (clock + d)).1 := by
        rw [hstep]
        split_ifs with hlt
        · linarith
        · have := le_of_not_lt hlt
          linarith
      have hrec := ih ((clock + d) + (wait_step rate (some clock) (clock + d)).1) hds
      rw [hunf]
      push_cast [List.length_cons]
      push_cast at hrec
      linarith

/-- C5: the first call to `wait` never blocks and only initializes the
marker; every later call sleeps exactly long enough that at least
`call_rate` has elapsed since the marker, and sets the marker to the time
after sleeping; hence a run of N calls with `calls_per_second = R` takes
at least `(N-1)/R` seconds of idealized wall-clock, and the constructor
sets `call_rate = 1/R` with an empty marker. -/
theorem c5_rate_limiter :
    (∀ (st : ClientState) (now : ℚ), st.last_call = Option.none →
        Bittrex.wait st now = (0, { st with last_call := some now })) ∧
    (∀ (rate lc now : ℚ),
        lc + rate ≤ now + (wait_step rate (some lc) now).1 ∧
        (wait_step rate (some lc) now).2 = now + (wait_step rate (some lc) now).1) ∧
    (∀ (R t0 d : ℚ) (ds : List ℚ), 0 < R → 0 ≤ d → (∀ x ∈ ds, 0 ≤ x) →
        t0 + (ds.length : ℚ) * (1 / R) ≤ (wait_calls (1 / R) t0 Option.none (d :: ds)).1) ∧
    (∀ (k s : Option String) (cps : ℚ),
        (mk_bittrex k s cps).call_rate = 1 / cps ∧
        (mk_bittrex k s cps).last_call = Option.none) := by
  refine ⟨?_, ?_, ?_, fun k s cps => ⟨rfl, rfl⟩⟩
  · intro st now h
    unfold Bittrex.wait
    rw [h]
    rfl
  · intro rate lc now
    refine ⟨?_, rfl⟩
    have hstep : (wait_step rate (some lc) now).1 =
        (if now - lc < rate then rate - (now - lc) else 0) := rfl
    rw [hstep]
    split_ifs with hlt
    · linarith
    · have := le_of_not_lt hlt
      linarith
  · intro R t0 d ds hR hd0 hds
    have hrate : (0 : ℚ) ≤ 1 / R := by positivity
    have hunf : wait_calls (1 / R) t0 Option.none (d :: ds) =
        wait_calls (1 / R) ((t0 + d) + 0) (some (t0 + d)) ds := rfl
    rw [hunf, add_zero]
    have hrec := wait_calls_ge (1 / R) hrate ds (t0 + d) hds
    linarith

/-- Witness for C5 at concrete inputs: a fresh client with
`calls_per_second = 2` does not sleep on its first call at time 7, and
three back-to-back calls (all inter-arrival delays zero) starting at
clock 0 finish at clock at least `2 * (1/2) = 1`. -/
theorem c5_rate_limiter_witness :
    Bittrex.wait (mk_bittrex (some "k") (some "s") 2) 7 =
      (0, { mk_bittrex (some "k") (some "s") 2 with last_call := some 7 }) ∧
    (0 : ℚ) + ((([0, 0] : List ℚ).length : ℚ)) * (1 / 2) ≤
      (wait_calls (1 / 2) 0 Option.none ((0 : ℚ) :: [0, 0])).1 :=
  ⟨c5_rate_limiter.1 (mk_bittrex (some "k") (some "s") 2) 7 rfl,
   c5_rate_limiter.2.2.1 2 0 0 [0, 0] (by norm_num) le_rfl (by
     intro x hx
     simp only [List.mem_cons, List.not_mem_nil, or_false] at hx
     rcases hx with rfl | rfl <;> norm_num)⟩

/-- Helper: mapping the market-name projection commutes with a filter
that only inspects the name. -/
theorem filter_map_marketName (p : String → Bool) :
    ∀ (ms : List Market),
      (ms.filter (fun m => p m.marketName)).map Market.marketName =
        (ms.map Market.marketName).filter p := by
  intro ms
  induction ms with
  | nil => rfl
  | cons m t ih =>
      cases h : p m.marketName <;>
        simp [List.filter_cons, List.map_cons, h, ih]

/-- C6: against any market list, the helper returns exactly the names of
the markets whose lowercased name ends with the lowercased requested
currency, in source order; on the fixture list the result is exactly
`BTC-LTC, USDT-LTC`. -/
theorem c6_list_markets :
    (∀ (markets : List Market) (currency : String),
        list_markets_by_currency markets currency =
          (markets.map Market.marketName).filter
            (fun nm => py_endswith (py_lower nm) (py_lower currency))) ∧
    list_markets_by_currency
        [⟨"BTC-LTC"⟩, ⟨"ETH-BTC"⟩, ⟨"USDT-LTC"⟩] "LTC" = ["BTC-LTC", "USDT-LTC"] := by
  constructor
  · intro markets currency
    exact filter_map_marketName (fun nm => py_endswith (py_lower nm) (py_lower currency)) markets
  · decide

/-- C7 counterexample: `withdraw` called with `paymentid` supplied as the
empty string omits the `paymentid` key (Python truthiness), contradicting
the claim that a supplied argument is always included with exactly the
given value. -/
theorem c7_counterexample_empty_paymentid :
    ¬ ((withdraw_options "BTC" "1.0" "addr" (some "")).lookup "paymentid" = some "") := by
  decide

/-- C7 amended: an optional filter argument that is omitted, `None` or
empty (falsy) produces an options dict without the key at all, and a
supplied non-empty value is included with exactly the given value; for
`get_withdrawal_history` both currency keys are included exactly when the
currency argument is truthy. -/
theorem c7_optional_params :
    ∀ (currency quantity address : String) (paymentid : Option String) (cur : Option String),
      (py_truthy paymentid = false →
        (withdraw_options currency quantity address paymentid).lookup "paymentid" =
          Option.none) ∧
      (∀ v, paymentid = some v → v ≠ "" →
        (withdraw_options currency quantity address paymentid).lookup "paymentid" = some v) ∧
      (py_truthy cur = false → effective_options (get_withdrawal_history_options cur) = []) ∧
      (∀ v, cur = some v → v ≠ "" →
        (effective_options (get_withdrawal_history_options cur)).lookup "currency" = some v ∧
        (effective_options (get_withdrawal_history_options cur)).lookup "currencyname" =
          some v) := by
  intro currency quantity address paymentid cur
  refine ⟨?_, ?_, ?_, ?_⟩
  · intro h
    unfold withdraw_options
    simp only [h]
    rfl
  · intro v hv hne
    subst hv
    have ht : py_truthy (some v) = true := by simp [py_truthy, hne]
    unfold withdraw_options
    simp only [ht]
    rfl
  · intro h
    unfold get_withdrawal_history_options
    simp only [h]
    rfl
  · intro v hv hne
    subst hv
    have ht : py_truthy (some v) = true := by simp [py_truthy, hne]
    unfold get_withdrawal_history_options
    simp only [ht]
    exact ⟨rfl, rfl⟩

/-- Witness for C7 amended at concrete inputs: a non-empty payment id is
included verbatim, and an omitted currency filter yields an empty options
dict. -/
theorem c7_optional_params_witness :
    (withdraw_options "BTC" "1.0" "addr" (some "tag")).lookup "paymentid" = some "tag" ∧
    effective_options (get_withdrawal_history_options Option.none) = [] :=
  ⟨(c7_optional_params "BTC" "1.0" "addr" (some "tag") Option.none).2.1 "tag" rfl (by decide),
   (c7_optional_params "BTC" "1.0" "addr" (some "tag") Option.none).2.2.1 rfl⟩

/-- C9 counterexample: `decrypt` is an operation of the client and
reassigns both credential attributes through the cipher; with a cipher
whose decryption appends a character the stored API key changes. -/
theorem c9_counterexample_decrypt_mutates :
    (Bittrex.decrypt (fun s => s ++ "x") c0).api_key ≠ c0.api_key := by
  decide

/-- C9 amended: the credentials are unchanged by every operation except
`decrypt` — `wait` and `_api_query` preserve `api_key` and `api_secret` —
while `decrypt` replaces both with the cipher decryption of their current
values. -/
theorem c9_credentials_immutable_except_decrypt :
    (∀ (st : ClientState) (now : ℚ),
        (Bittrex.wait st now).2.api_key = st.api_key ∧
        (Bittrex.wait st now).2.api_secret = st.api_secret) ∧
    (∀ (P : HashPrims) (tr : Transport) (st : ClientState) (now : ℚ)
        (prot : Option String) (path_repr : String)
        (options : Option (List (String × String))) (body : Option String)
        (v : PyVal) (st' : ClientState),
        api_query P tr st now prot path_repr options body = Except.ok (v, st') →
        st'.api_key = st.api_key ∧ st'.api_secret = st.api_secret) ∧
    (∀ (dec : String → String) (st : ClientState),
        (Bittrex.decrypt dec st).api_key = dec st.api_key ∧
        (Bittrex.decrypt dec st).api_secret = dec st.api_secret) := by
  refine ⟨fun st now => ⟨rfl, rfl⟩, ?_, fun dec st => ⟨rfl, rfl⟩⟩
  intro P tr st now prot path opts body v st' h
  unfold api_query at h
  cases htr : tr (api_query_request P st now prot path opts body) with
  | ok j =>
      rw [htr] at h
      injection h with hp
      injection hp with hj hst
      subst hst
      exact ⟨rfl, rfl⟩
  | error e =>
      rw [htr] at h
      injection h with hp
      injection hp with hj hst
      subst hst
      exact ⟨rfl, rfl⟩

/-- Witness for C9 amended: a concrete `_api_query` call (with a failing
transport) returns a state carrying the same credentials as the input
client. -/
theorem c9_credentials_witness :
    ((Bittrex.wait c0 0).2).api_key = c0.api_key ∧
    ((Bittrex.wait c0 0).2).api_secret = c0.api_secret :=
  c9_credentials_immutable_except_decrypt.2.1 P0
    (fun _ => Except.error (PyExn.requestException "timeout")) c0 0 Option.none "/markets"
    Option.none Option.none (no_api_response (PyExn.requestException "timeout"))
    ((Bittrex.wait c0 0).2) rfl
